import Mathlib

/-!
Verification of the multi-source store-data aggregation engine of
`xivix-best-map`: the `/api/analysis/multi` route in `src/index.tsx`
(lines 403-712).  The route fans out to four providers (kakao, tmap,
naver, semas), stores each provider's outcome in `results.sources`,
merges the returned listings into a deduplicated competitor map
(`addCompetitors`, lines 618-643), sorts the competitor list
(lines 645-652) and builds the summary statistics (lines 654-709).

Modelling conventions:
* JS numbers are modelled as `ℚ` (exact rationals); the double value of
  `Math.PI` is the exact rational `piQ`; the literals `0.4`/`0.3` are
  modelled as `2/5`/`3/10` (their tiny double representation error is far
  below anything the claims measure).
* `Math.round` is `jsRound` (round half toward +∞).
* Optional/absent JS fields are `Option _`; JS truthiness of the strings
  and numbers tested by the merge (`item.phone && !existing.phone`, etc.)
  is `truthyStr` / `truthyNum` (empty string and `0` are falsy).
* A provider block that throws stores `{ error }` (`SourceSlot.failed`);
  a non-2xx response (or a semas result code other than "00") stores
  nothing (`SourceSlot.absent`); a parsed success stores its data
  (`SourceSlot.ok`).
* The JS `Map` (insertion ordered) is an association list; `Array.sort`
  with the comparator of lines 647-652 is modelled as a stable sort by
  the comparator's `≤ 0` relation (`sortRel`).
-/

/-- JS truthiness of an optional string field: missing (`undefined`) and
the empty string are falsy. -/
def truthyStr : Option String → Bool
  | none => false
  | some s => s != ""

/-- JS truthiness of an optional numeric field: missing (`undefined`) and
`0` are falsy. -/
def truthyNum : Option ℚ → Bool
  | none => false
  | some q => q != 0

/-- One normalized provider listing, as pushed into `results.sources.<id>.items`
(kakao lines 456-465, tmap 496-504, naver 532-539, semas 589-596).  Fields a
provider does not supply are `none`. -/
structure RawItem where
  name : String
  address : String
  category : Option String := none
  phone : Option String := none
  distance : Option ℚ := none
  lon : Option ℚ := none
  lat : Option ℚ := none
  placeUrl : Option String := none
  deriving DecidableEq, Repr

/-- One value of the `allCompetitors` map: a listing's fields plus the
`sources` provenance array (line 626). -/
structure Business where
  name : String
  address : String
  category : Option String
  phone : Option String
  distance : Option ℚ
  lon : Option ℚ
  lat : Option ℚ
  placeUrl : Option String
  sources : List String
  deriving DecidableEq, Repr

/-- `.toLowerCase().replace(/\s/g, '')` on a string's characters: lowercase
every character, then drop every whitespace character. -/
def normChars (cs : List Char) : List Char :=
  (cs.map Char.toLower).filter (fun ch => !ch.isWhitespace)

/-- The dedup key of line 624:
`` `${item.name}_${item.address}`.toLowerCase().replace(/\s/g, '') ``. -/
def dedupKey (it : RawItem) : String :=
  String.mk (normChars (it.name.toList ++ '_' :: it.address.toList))

/-- `{ ...item, sources: [source] }` (line 626). -/
def initBusiness (source : String) (it : RawItem) : Business :=
  { name := it.name, address := it.address, category := it.category,
    phone := it.phone, distance := it.distance, lon := it.lon, lat := it.lat,
    placeUrl := it.placeUrl, sources := [source] }

/-- The merge of lines 628-636: push `source` if not yet present, then fill
`phone`, `distance`, `placeUrl` from the incoming item when the existing
entry's field is falsy and the incoming one is truthy.  No other field is
touched. -/
def mergeListing (source : String) (it : RawItem) (b : Business) : Business :=
  let b1 := if source ∈ b.sources then b else { b with sources := b.sources ++ [source] }
  let b2 := if truthyStr it.phone && !truthyStr b1.phone then { b1 with phone := it.phone } else b1
  let b3 := if truthyNum it.distance && !truthyNum b2.distance then { b2 with distance := it.distance } else b2
  if truthyStr it.placeUrl && !truthyStr b3.placeUrl then { b3 with placeUrl := it.placeUrl } else b3

/-- `Map.get` on the insertion-ordered association list. -/
def mapGet (k : String) : List (String × Business) → Option Business
  | [] => none
  | (k', b) :: rest => if k' = k then some b else mapGet k rest

/-- In-place update of the entry at key `k` (JS mutates the looked-up value;
the key keeps its position). -/
def mapUpdate (k : String) (f : Business → Business) :
    List (String × Business) → List (String × Business)
  | [] => []
  | (k', b) :: rest =>
    if k' = k then (k', f b) :: rest else (k', b) :: mapUpdate k f rest

/-- One iteration of the `forEach` body (lines 623-637): a fresh key appends
a new entry, an existing key merges into the stored entry. -/
def addListing (source : String) (m : List (String × Business)) (it : RawItem) :
    List (String × Business) :=
  let key := dedupKey it
  match mapGet key m with
  | none => m ++ [(key, initBusiness source it)]
  | some _ => mapUpdate key (mergeListing source it) m

/-- `addCompetitors(source, items)` (lines 622-638), with the mutable
`allCompetitors` map passed explicitly. -/
def addCompetitors (source : String) (items : List RawItem)
    (m : List (String × Business)) : List (String × Business) :=
  items.foldl (addListing source) m

/-- The four guarded `addCompetitors` calls (lines 640-643) folded over the
present sources, starting from the empty map (line 619). -/
def mergeAll (batches : List (String × List RawItem)) : List (String × Business) :=
  batches.foldl (fun m p => addCompetitors p.1 p.2 m) []

/-- `a.distance || 9999` (line 651): a missing or zero distance is replaced
by 9999. -/
def effDistance (b : Business) : ℚ :=
  match b.distance with
  | none => 9999
  | some d => if d = 0 then 9999 else d

/-- "`a` may come before `b`" for the comparator of lines 647-652:
the comparator value `(b.sources.length - a.sources.length, then
effDistance a - effDistance b)` is `≤ 0`. -/
def sortRel (a b : Business) : Prop :=
  b.sources.length < a.sources.length ∨
    (a.sources.length = b.sources.length ∧ effDistance a ≤ effDistance b)

instance : DecidableRel sortRel := fun a b => by
  unfold sortRel; infer_instance

instance : IsTotal Business sortRel := by
  constructor
  intro a b
  unfold sortRel
  rcases Nat.lt_trichotomy a.sources.length b.sources.length with h | h | h
  · exact Or.inr (Or.inl h)
  · rcases le_total (effDistance a) (effDistance b) with hd | hd
    · exact Or.inl (Or.inr ⟨h, hd⟩)
    · exact Or.inr (Or.inr ⟨h.symm, hd⟩)
  · exact Or.inl (Or.inl h)

instance : IsTrans Business sortRel := by
  constructor
  intro a b c hab hbc
  unfold sortRel at *
  rcases hab with h1 | ⟨h1, d1⟩ <;> rcases hbc with h2 | ⟨h2, d2⟩
  · exact Or.inl (h2.trans h1)
  · exact Or.inl (by omega)
  · exact Or.inl (by omega)
  · exact Or.inr ⟨h1.trans h2, d1.trans d2⟩

/-- The sort of lines 646-652: a stable sort of the map's values by the
comparator (`Array.prototype.sort` is stable and, for this consistent
comparator, sorts by `sortRel`). -/
def sortCompetitors (l : List Business) : List Business :=
  List.insertionSort sortRel l

/-- Outcome of one provider's fetch block: the block throws (network error
or malformed payload, caught at the `catch`), the response is non-2xx (the
`if (response.ok)` guard fails and nothing happens), or a payload is
parsed. -/
inductive FetchResult (α : Type) where
  | throws (msg : String)
  | non2xx
  | success (data : α)
  deriving DecidableEq, Repr

/-- What `results.sources.<id>` holds after the block: nothing at all, an
`{ error }` object, or the parsed data. -/
inductive SourceSlot (α : Type) where
  | absent
  | failed (msg : String)
  | ok (data : α)
  deriving DecidableEq, Repr

/-- Parsed data of kakao / tmap / naver: the reported `totalCount` and the
returned `items`. -/
structure SourceData where
  totalCount : ℕ
  items : List RawItem
  deriving DecidableEq, Repr

/-- Parsed semas data: the reported `totalCount` and the target-category
listings (`targetItems`, lines 563, 588-597); `targetCategoryCount` is
`targetItems.length` (line 602) and the merged `items` are
`targetItems.slice(0, 30)` (line 606). -/
structure SemasData where
  totalCount : ℕ
  targetItems : List RawItem
  deriving DecidableEq, Repr

/-- kakao / tmap / naver blocks: `catch` writes `{ error }` (lines 468-471
etc.), a non-ok response writes nothing, success writes the data. -/
def routeSlot {α : Type} : FetchResult α → SourceSlot α
  | .throws m => .failed m
  | .non2xx => .absent
  | .success d => .ok d

/-- The semas block additionally requires `header.resultCode === '00'`
(line 556); any other code writes nothing. -/
def semasSlot : FetchResult (String × SemasData) → SourceSlot SemasData
  | .throws m => .failed m
  | .non2xx => .absent
  | .success p => if p.1 = "00" then .ok p.2 else .absent

/-- `results.sources` after the four provider blocks. -/
structure Sources where
  kakao : SourceSlot SourceData
  tmap : SourceSlot SourceData
  naver : SourceSlot SourceData
  semas : SourceSlot SemasData
  deriving DecidableEq, Repr

def buildSources (ko tm nv : FetchResult SourceData)
    (sm : FetchResult (String × SemasData)) : Sources :=
  { kakao := routeSlot ko, tmap := routeSlot tm, naver := routeSlot nv,
    semas := semasSlot sm }

/-- `results.sources.semas.items` = `targetItems.slice(0, 30)` (line 606). -/
def semasItems (d : SemasData) : List RawItem :=
  d.targetItems.take 30

/-- The guarded batches of lines 640-643: a source contributes its items
exactly when its slot holds parsed data (a JS array, even empty, is
truthy; a failed or absent slot has no `items`). -/
def sourceBatches (s : Sources) : List (String × List RawItem) :=
  (match s.kakao with | .ok d => [("kakao", d.items)] | _ => []) ++
  (match s.tmap with | .ok d => [("tmap", d.items)] | _ => []) ++
  (match s.naver with | .ok d => [("naver", d.items)] | _ => []) ++
  (match s.semas with | .ok d => [("semas", semasItems d)] | _ => [])

/-- `results.competitors` (lines 646-652): merge, take the map's values,
sort. -/
def mergedCompetitors (s : Sources) : List Business :=
  sortCompetitors ((mergeAll (sourceBatches s)).map Prod.snd)

/-- `results.sources.kakao?.totalCount || 0` (line 655). -/
def kakaoTotal (s : Sources) : ℕ :=
  match s.kakao with | .ok d => d.totalCount | _ => 0

/-- `results.sources.tmap?.totalCount || 0` (line 656). -/
def tmapTotal (s : Sources) : ℕ :=
  match s.tmap with | .ok d => d.totalCount | _ => 0

/-- `results.sources.semas?.targetCategoryCount || 0` (line 657), where
`targetCategoryCount = targetItems.length` (line 602). -/
def semasTargetCount (s : Sources) : ℕ :=
  match s.semas with | .ok d => d.targetItems.length | _ => 0

/-- `Math.round`: round half toward positive infinity. -/
def jsRound (q : ℚ) : ℤ := ⌊q + 1 / 2⌋

/-- The IEEE-754 double value of `Math.PI`, as an exact rational
(`884279719003555 · 2⁻⁴⁸`). -/
def piQ : ℚ := 884279719003555 / 281474976710656

/-- `estimatedCount` (lines 660-662): fixed-weight rounded sum
`Math.round(kakaoCount*0.4 + tmapCount*0.3 + semasCount*0.3)`. -/
def estimatedCount (s : Sources) : ℤ :=
  jsRound ((kakaoTotal s : ℚ) * (2 / 5) + (tmapTotal s : ℚ) * (3 / 10) +
    (semasTargetCount s : ℚ) * (3 / 10))

/-- `areaKm2 = Math.PI * Math.pow(radius / 1000, 2)` (line 664), before the
2-decimal rounding applied at line 696. -/
def areaKm2 (radius : ℕ) : ℚ := piQ * ((radius : ℚ) / 1000) ^ 2

/-- `riskLevel` (lines 672-692). -/
def riskLevel (e : ℤ) : String :=
  if e = 0 then "블루오션"
  else if e ≤ 10 then "낮음"
  else if e ≤ 30 then "보통"
  else if e ≤ 70 then "높음"
  else "매우 높음"

/-- `riskColor` (lines 672-692). -/
def riskColor (e : ℤ) : String :=
  if e = 0 then "blue"
  else if e ≤ 10 then "green"
  else if e ≤ 30 then "yellow"
  else if e ≤ 70 then "orange"
  else "red"

/-- `riskDescription` (lines 672-692). -/
def riskDescription (e : ℤ) : String :=
  if e = 0 then "경쟁업체가 거의 없는 미개척 시장"
  else if e ≤ 10 then "경쟁업체 " ++ toString e ++ "개 - 진입 용이"
  else if e ≤ 30 then "경쟁업체 " ++ toString e ++ "개 - 차별화 필요"
  else if e ≤ 70 then "경쟁업체 " ++ toString e ++ "개 - 치열한 경쟁"
  else "경쟁업체 " ++ toString e ++ "개 - 레드오션"

/-- Position of a risk label in the ordered tier enum
(블루오션 = BlueOcean < 낮음 = Low < 보통 = Medium < 높음 = High <
매우 높음 = VeryHigh). -/
def tierRank (t : String) : ℕ :=
  if t = "블루오션" then 0
  else if t = "낮음" then 1
  else if t = "보통" then 2
  else if t = "높음" then 3
  else 4

/-- `competitors.filter(c => c.sources.length > 1).length`
(lines 706, 708). -/
def crossVerifiedCount (competitors : List Business) : ℕ :=
  (competitors.filter (fun b => decide (1 < b.sources.length))).length

/-- `results.summary` (lines 694-709). -/
structure Summary where
  estimatedCompetitors : ℤ
  areaKm2 : ℚ
  density : ℚ
  riskLevel : String
  riskColor : String
  riskDescription : String
  totalStores : ℕ
  cmpKakao : ℕ
  cmpTmap : ℕ
  cmpSemas : ℕ
  crossVerified : ℕ
  reliability : String
  deriving DecidableEq, Repr

/-- Lines 694-709: the summary object, with `areaKm2` rounded to 2 decimals
(`Math.round(areaKm2 * 100) / 100`) and `density` to 1 decimal
(`Math.round(density * 10) / 10`). -/
def buildSummary (s : Sources) (radius : ℕ) : Summary :=
  let est := estimatedCount s
  let area := areaKm2 radius
  let dens := (est : ℚ) / area
  let cross := crossVerifiedCount (mergedCompetitors s)
  { estimatedCompetitors := est
    areaKm2 := (jsRound (area * 100) : ℚ) / 100
    density := (jsRound (dens * 10) : ℚ) / 10
    riskLevel := riskLevel est
    riskColor := riskColor est
    riskDescription := riskDescription est
    totalStores := match s.semas with | .ok d => d.totalCount | _ => 0
    cmpKakao := kakaoTotal s
    cmpTmap := tmapTotal s
    cmpSemas := semasTargetCount s
    crossVerified := cross
    reliability := if 5 < cross then "높음" else "보통" }

/-- The parts of the route's JSON response the claims are about. -/
structure Report where
  sources : Sources
  competitors : List Business
  summary : Summary
  deriving DecidableEq, Repr

/-- The whole `/api/analysis/multi` computation after the four fetches. -/
def runAnalysis (ko tm nv : FetchResult SourceData)
    (sm : FetchResult (String × SemasData)) (radius : ℕ) : Report :=
  let s := buildSources ko tm nv sm
  { sources := s, competitors := mergedCompetitors s,
    summary := buildSummary s radius }

/-- Written from the spec's words, for comparison with `estimatedCount`
(claim C1): a weighted sum over only the sources that reported a total,
with the weights (0.4 kakao, 0.3 tmap, 0.3 semas) renormalized to sum to
1 across the reporting sources; an absent source contributes no term. -/
def specRenormEstimate (kakao tmap semas : Option ℕ) : ℚ :=
  let terms : List (ℚ × ℚ) :=
    (match kakao with | some n => [(2 / 5, (n : ℚ))] | none => []) ++
    (match tmap with | some n => [(3 / 10, (n : ℚ))] | none => []) ++
    (match semas with | some n => [(3 / 10, (n : ℚ))] | none => [])
  let wsum := (terms.map Prod.fst).sum
  if wsum = 0 then 0 else (terms.map (fun p => p.1 * p.2)).sum / wsum

/-- Written from the claim C5 wording, for comparison with `dedupKey`:
"the listing's name concatenated with its address, lowercased and with
all whitespace removed" (no separator). -/
def claimDedupKey (it : RawItem) : String :=
  String.mk (normChars (it.name.toList ++ it.address.toList))

/-- `true` when the fetch block did not produce a parsed 2xx payload. -/
def isFailure {α : Type} : FetchResult α → Bool
  | .success _ => false
  | _ => true

/-- `true` when `results.sources.<id>` holds parsed provider data. -/
def slotOk {α : Type} : SourceSlot α → Bool
  | .ok _ => true
  | _ => false

/-- A run in which all four provider fetches throw (e.g. time out). -/
def c4AllFail : Sources :=
  buildSources (.throws "timeout") (.throws "timeout") (.throws "timeout")
    (.throws "timeout")

/-- A run in which all four provider fetches succeed with zero matches. -/
def c4AllZero : Sources :=
  buildSources (.success { totalCount := 0, items := [] })
    (.success { totalCount := 0, items := [] })
    (.success { totalCount := 0, items := [] })
    (.success ("00", { totalCount := 0, targetItems := [] }))

/-- tmap succeeded, reporting total 20 (C1 data). -/
def c1Tmap : SourceData := { totalCount := 20, items := [] }

/-- semas succeeded with 15 target-category listings (C1 data). -/
def c1Semas : SemasData :=
  { totalCount := 100, targetItems := List.replicate 15 { name := "가게", address := "주소" } }

/-- kakao absent (non-2xx); tmap and semas reporting (C1 data). -/
def c1KakaoMissing : Sources :=
  buildSources .non2xx (.success c1Tmap) .non2xx (.success ("00", c1Semas))

/-- Same run but with kakao genuinely reporting a zero total (C1 data). -/
def c1KakaoZero : Sources :=
  buildSources (.success { totalCount := 0, items := [] }) (.success c1Tmap)
    .non2xx (.success ("00", c1Semas))

/-- kakao reporting total 10; the other three sources absent (C7 data). -/
def c7Sources : Sources :=
  buildSources (.success { totalCount := 10, items := [] }) .non2xx .non2xx
    .non2xx

/-- A single-source competitor 12 km away (C3 data). -/
def c3Far : Business :=
  { name := "far", address := "a", category := none, phone := none,
    distance := some 12000, lon := none, lat := none, placeUrl := none,
    sources := ["kakao"] }

/-- A single-source competitor with unknown distance (C3 data). -/
def c3NoDist : Business :=
  { name := "nodist", address := "b", category := none, phone := none,
    distance := none, lon := none, lat := none, placeUrl := none,
    sources := ["tmap"] }

/-- Listing with name "ab", address "c" (C5 data). -/
def c5ItemAB : RawItem := { name := "ab", address := "c" }

/-- Listing with name "a", address "bc" (C5 data). -/
def c5ItemA : RawItem := { name := "a", address := "bc" }

/-- Kakao's "Cafe Moon" listing (C5 data). -/
def c5Moon1 : RawItem :=
  { name := "Cafe Moon", address := "12 Main St", phone := some "555" }

/-- Tmap's "cafe moon" listing, differing only in case and spacing
(C5 data). -/
def c5Moon2 : RawItem := { name := "cafe moon", address := "12 MAIN ST" }

/-- First-seen listing: no category, no coordinates, no phone (C8 data). -/
def c8First : RawItem := { name := "종로 카페", address := "서울 종로구 1" }

/-- Later listing with the same dedup key, carrying category, coordinates
and phone (C8 data). -/
def c8Second : RawItem :=
  { name := "종로카페", address := "서울종로구1", category := some "카페",
    phone := some "02-111-2222", lon := some 127, lat := some 37 }

/-- tmap data for the C9 witness. -/
def c9Tmap : SourceData :=
  { totalCount := 7, items := [{ name := "A", address := "B", distance := some 10 }] }

/-- naver data for the C9 witness. -/
def c9Naver : SourceData := { totalCount := 3, items := [] }

/-- semas data for the C9 witness. -/
def c9Semas : SemasData :=
  { totalCount := 5, targetItems := [{ name := "C", address := "D" }] }

/-- Listing for the C2 witness. -/
def c2Item : RawItem := { name := "상점", address := "주소 1" }

/-- Monotonicity of the risk-tier position in the estimated count, for the
branch structure of lines 672-692. -/
theorem tierRank_riskLevel_mono (e f : ℤ) (he : 0 ≤ e) (hef : e ≤ f) :
    tierRank (riskLevel e) ≤ tierRank (riskLevel f) := by
  unfold riskLevel
  split_ifs <;> simp [tierRank] <;> omega

/-- C6: for every non-negative estimated competitor count the risk tier is
exactly: 0 → 블루오션 (BlueOcean), 1-10 → 낮음 (Low), 11-30 → 보통 (Medium),
31-70 → 높음 (High), above 70 → 매우 높음 (VeryHigh), with inclusive upper
bounds; consequently the tier position is non-decreasing in the count. -/
theorem C6_risk_tiers (n : ℕ) :
    (riskLevel (n : ℤ) = "블루오션" ↔ n = 0) ∧
    (riskLevel (n : ℤ) = "낮음" ↔ 1 ≤ n ∧ n ≤ 10) ∧
    (riskLevel (n : ℤ) = "보통" ↔ 11 ≤ n ∧ n ≤ 30) ∧
    (riskLevel (n : ℤ) = "높음" ↔ 31 ≤ n ∧ n ≤ 70) ∧
    (riskLevel (n : ℤ) = "매우 높음" ↔ 71 ≤ n) ∧
    (∀ m : ℕ, n ≤ m → tierRank (riskLevel (n : ℤ)) ≤ tierRank (riskLevel (m : ℤ))) := by
  refine ⟨?_, ?_, ?_, ?_, ?_, ?_⟩
  · unfold riskLevel; split_ifs <;> simp <;> omega
  · unfold riskLevel; split_ifs <;> simp <;> omega
  · unfold riskLevel; split_ifs <;> simp <;> omega
  · unfold riskLevel; split_ifs <;> simp <;> omega
  · unfold riskLevel; split_ifs <;> simp <;> omega
  · intro m hm
    exact tierRank_riskLevel_mono (n : ℤ) (m : ℤ) (by omega) (by omega)

/-- Witness for C6 at concrete counts. -/
theorem C6_risk_tiers_witness :
    (riskLevel ((25 : ℕ) : ℤ) = "보통") ∧
    tierRank (riskLevel ((5 : ℕ) : ℤ)) ≤ tierRank (riskLevel ((80 : ℕ) : ℤ)) :=
  ⟨((C6_risk_tiers 25).2.2.1).mpr (by omega),
   (C6_risk_tiers 5).2.2.2.2.2 80 (by omega)⟩

/-- C10 (implicit): the naver source never influences the estimated
competitor count — two runs that differ only in the naver fetch outcome
(items, total, or even failure) produce the same
`summary.estimatedCompetitors`, because lines 654-661 read only the kakao
total, the tmap total, and the semas target-category count. -/
theorem C10_naver_never_influences_estimate
    (ko tm : FetchResult SourceData) (nv1 nv2 : FetchResult SourceData)
    (sm : FetchResult (String × SemasData)) (radius : ℕ) :
    (runAnalysis ko tm nv1 sm radius).summary.estimatedCompetitors =
      (runAnalysis ko tm nv2 sm radius).summary.estimatedCompetitors := rfl

/-- C4 counterexample: when all four sources fail the summary has
`estimatedCompetitors = 0` but `reliability = "보통"` — exactly the same
ordinary Medium value produced when all sources succeed and genuinely
report zero matches.  There is no distinct "unavailable" sentinel, so the
two runs are not distinguishable through `reliability`. -/
theorem C4_counterexample :
    (buildSummary c4AllFail 1000).estimatedCompetitors = 0 ∧
    (buildSummary c4AllFail 1000).reliability = "보통" ∧
    (buildSummary c4AllZero 1000).estimatedCompetitors = 0 ∧
    (buildSummary c4AllZero 1000).reliability = "보통" := by
  refine ⟨?_, ?_, ?_, ?_⟩
  · simp [c4AllFail, buildSummary, buildSources, routeSlot, semasSlot,
      estimatedCount, kakaoTotal, tmapTotal, semasTargetCount, jsRound]
    norm_num
  · simp [c4AllFail, buildSummary, buildSources, routeSlot, semasSlot,
      mergedCompetitors, sourceBatches, mergeAll, sortCompetitors,
      crossVerifiedCount]
  · simp [c4AllZero, buildSummary, buildSources, routeSlot, semasSlot,
      estimatedCount, kakaoTotal, tmapTotal, semasTargetCount, jsRound]
    norm_num
  · simp [c4AllZero, buildSummary, buildSources, routeSlot, semasSlot,
      mergedCompetitors, sourceBatches, mergeAll, sortCompetitors,
      addCompetitors, crossVerifiedCount, semasItems]

/-- C4 as amended: a run where all four adapters fail still returns a
summary with `estimatedCompetitors = 0`, but its `reliability` is the
ordinary value `"보통"` (Medium) — the same value an all-success
zero-match run produces — not a distinct "unavailable" sentinel. -/
theorem C4_amended (e1 e2 e3 e4 : String) (r : ℕ) :
    (runAnalysis (.throws e1) (.throws e2) (.throws e3) (.throws e4)
        r).summary.estimatedCompetitors = 0 ∧
    (runAnalysis (.throws e1) (.throws e2) (.throws e3) (.throws e4)
        r).summary.reliability = "보통" ∧
    (buildSummary c4AllZero r).reliability = "보통" := by
  refine ⟨?_, ?_, ?_⟩
  · simp [runAnalysis, buildSummary, buildSources, routeSlot, semasSlot,
      estimatedCount, kakaoTotal, tmapTotal, semasTargetCount, jsRound]
    norm_num
  · simp [runAnalysis, buildSummary, buildSources, routeSlot, semasSlot,
      mergedCompetitors, sourceBatches, mergeAll, sortCompetitors,
      crossVerifiedCount]
  · simp [c4AllZero, buildSummary, buildSources, routeSlot, semasSlot,
      mergedCompetitors, sourceBatches, mergeAll, sortCompetitors,
      addCompetitors, crossVerifiedCount, semasItems]

/-- C1 counterexample: with kakao absent and tmap/semas reporting 20/15,
the code computes `round(0·0.4 + 20·0.3 + 15·0.3) = 11`, whereas the
claimed renormalized weighted sum over the reporting sources is
`(20·0.3 + 15·0.3)/0.6 = 17.5`, rounding to 18.  The absent source is
treated exactly as a zero count: the result equals the kakao-reports-zero
run. -/
theorem C1_counterexample :
    estimatedCount c1KakaoMissing = 11 ∧
    jsRound (specRenormEstimate none (some 20) (some 15)) = 18 ∧
    estimatedCount c1KakaoMissing ≠
      jsRound (specRenormEstimate none (some 20) (some 15)) ∧
    estimatedCount c1KakaoMissing = estimatedCount c1KakaoZero := by
  have h1 : estimatedCount c1KakaoMissing = 11 := by
    simp [c1KakaoMissing, c1Tmap, c1Semas, buildSources, routeSlot, semasSlot,
      estimatedCount, kakaoTotal, tmapTotal, semasTargetCount, jsRound]
    norm_num
  have h2 : jsRound (specRenormEstimate none (some 20) (some 15)) = 18 := by
    simp [specRenormEstimate, jsRound]
    norm_num
  refine ⟨h1, h2, by rw [h1, h2]; decide, ?_⟩
  rw [h1]
  simp [c1KakaoZero, c1Tmap, c1Semas, buildSources, routeSlot, semasSlot,
    estimatedCount, kakaoTotal, tmapTotal, semasTargetCount, jsRound]
  norm_num

/-- C1 as amended: `estimatedCompetitors` is the fixed-weight rounded sum
`round(0.4·kakaoTotal + 0.3·tmapTotal + 0.3·semasTargetCount)`; a source
that did not report contributes a zero count — its weight is not
redistributed, so a failed source is treated exactly like a source
reporting a total of zero (and naver never contributes at all). -/
theorem C1_amended :
    (∀ (kd td : SourceData) (sd : SemasData) (nv : FetchResult SourceData) (r : ℕ),
      (runAnalysis (.success kd) (.success td) nv (.success ("00", sd))
          r).summary.estimatedCompetitors =
        jsRound ((kd.totalCount : ℚ) * (2 / 5) + (td.totalCount : ℚ) * (3 / 10) +
          (sd.targetItems.length : ℚ) * (3 / 10))) ∧
    (∀ (f : FetchResult SourceData), isFailure f = true →
      ∀ (td : SourceData) (sd : SemasData) (nv : FetchResult SourceData) (r : ℕ),
      (runAnalysis f (.success td) nv (.success ("00", sd))
          r).summary.estimatedCompetitors =
        (runAnalysis (.success { totalCount := 0, items := [] }) (.success td) nv
          (.success ("00", sd)) r).summary.estimatedCompetitors) ∧
    (∀ (f : FetchResult SourceData), isFailure f = true →
      ∀ (kd : SourceData) (sd : SemasData) (nv : FetchResult SourceData) (r : ℕ),
      (runAnalysis (.success kd) f nv (.success ("00", sd))
          r).summary.estimatedCompetitors =
        (runAnalysis (.success kd) (.success { totalCount := 0, items := [] }) nv
          (.success ("00", sd)) r).summary.estimatedCompetitors) ∧
    (∀ (f : FetchResult (String × SemasData)), isFailure f = true →
      ∀ (kd td : SourceData) (nv : FetchResult SourceData) (r : ℕ),
      (runAnalysis (.success kd) (.success td) nv f
          r).summary.estimatedCompetitors =
        (runAnalysis (.success kd) (.success td) nv
          (.success ("00", { totalCount := 0, targetItems := [] }))
          r).summary.estimatedCompetitors) := by
  refine ⟨?_, ?_, ?_, ?_⟩
  · intro kd td sd nv r
    simp [runAnalysis, buildSummary, buildSources, routeSlot, semasSlot,
      estimatedCount, kakaoTotal, tmapTotal, semasTargetCount]
  · intro f h td sd nv r
    cases f with
    | throws m => rfl
    | non2xx => rfl
    | success d => simp [isFailure] at h
  · intro f h kd sd nv r
    cases f with
    | throws m => rfl
    | non2xx => rfl
    | success d => simp [isFailure] at h
  · intro f h kd td nv r
    cases f with
    | throws m => rfl
    | non2xx => rfl
    | success d => simp [isFailure] at h

/-- Witness for C1 as amended: an absent kakao source is treated as a
zero-total kakao source. -/
theorem C1_amended_witness :
    (runAnalysis .non2xx (.success c1Tmap) .non2xx (.success ("00", c1Semas))
        1000).summary.estimatedCompetitors =
      (runAnalysis (.success { totalCount := 0, items := [] }) (.success c1Tmap)
        .non2xx (.success ("00", c1Semas)) 1000).summary.estimatedCompetitors :=
  C1_amended.2.1 .non2xx (by decide) c1Tmap c1Semas .non2xx 1000

/-- `Math.round` moves a value by at most one half. -/
theorem abs_jsRound_sub (q : ℚ) : |(jsRound q : ℚ) - q| ≤ 1 / 2 := by
  unfold jsRound
  have h1 := Int.floor_le (q + 1 / 2)
  have h2 := Int.lt_floor_add_one (q + 1 / 2)
  rw [abs_le]
  constructor <;> linarith

/-- C7 counterexample: for radius 1000 m the reported `areaKm2` is the
2-decimal rounding `3.14`, which differs from `π·(1000/1000)² = π` by more
than the claimed ±0.001; and the reported density (1 decimal) is `1.3`,
not the exact quotient `estimatedCount / areaKm2`. -/
theorem C7_counterexample :
    (buildSummary c7Sources 1000).areaKm2 = 157 / 50 ∧
    (1 / 1000 : ℝ) < |(157 / 50 : ℝ) - Real.pi| ∧
    (buildSummary c7Sources 1000).density = 13 / 10 ∧
    (buildSummary c7Sources 1000).density ≠
      (estimatedCount c7Sources : ℚ) / areaKm2 1000 := by
  have hest : estimatedCount c7Sources = 4 := by
    simp [c7Sources, buildSources, routeSlot, semasSlot, estimatedCount,
      kakaoTotal, tmapTotal, semasTargetCount, jsRound]
    norm_num
  have harea : (buildSummary c7Sources 1000).areaKm2 = 157 / 50 := by
    show (jsRound (areaKm2 1000 * 100) : ℚ) / 100 = 157 / 50
    rw [areaKm2, piQ, jsRound]
    norm_num
  have hdens : (buildSummary c7Sources 1000).density = 13 / 10 := by
    show (jsRound ((estimatedCount c7Sources : ℚ) / areaKm2 1000 * 10) : ℚ) / 10 =
      13 / 10
    rw [hest, areaKm2, piQ, jsRound]
    norm_num
  refine ⟨harea, ?_, hdens, ?_⟩
  · have hpi := Real.pi_gt_d6
    have hpos : (0 : ℝ) < Real.pi - 157 / 50 := by linarith
    rw [abs_sub_comm, abs_of_pos hpos]
    linarith
  · rw [hdens, hest, areaKm2, piQ]
    norm_num

/-- C7 as amended: the reported `areaKm2` is `π·(r/1000)²` rounded to two
decimals (so within ±0.005 of the unrounded area, not ±0.001), and the
reported density is `estimatedCount / areaKm2` rounded to one decimal (so
within ±0.05 of the exact quotient, not exact). -/
theorem C7_amended (s : Sources) (r : ℕ) (hr : 0 < r) :
    |(buildSummary s r).areaKm2 - areaKm2 r| ≤ 1 / 200 ∧
    |(buildSummary s r).density - (estimatedCount s : ℚ) / areaKm2 r| ≤ 1 / 20 := by
  constructor
  · have h := abs_jsRound_sub (areaKm2 r * 100)
    have heq : (buildSummary s r).areaKm2 - areaKm2 r =
        ((jsRound (areaKm2 r * 100) : ℚ) - areaKm2 r * 100) / 100 := by
      show (jsRound (areaKm2 r * 100) : ℚ) / 100 - areaKm2 r = _
      ring
    rw [heq, abs_div]
    rw [show |(100 : ℚ)| = 100 by norm_num]
    linarith
  · have h := abs_jsRound_sub ((estimatedCount s : ℚ) / areaKm2 r * 10)
    have heq : (buildSummary s r).density - (estimatedCount s : ℚ) / areaKm2 r =
        ((jsRound ((estimatedCount s : ℚ) / areaKm2 r * 10) : ℚ) -
          (estimatedCount s : ℚ) / areaKm2 r * 10) / 10 := by
      show (jsRound ((estimatedCount s : ℚ) / areaKm2 r * 10) : ℚ) / 10 -
        (estimatedCount s : ℚ) / areaKm2 r = _
      ring
    rw [heq, abs_div]
    rw [show |(10 : ℚ)| = 10 by norm_num]
    linarith

/-- Witness for C7 as amended, at radius 500 m. -/
theorem C7_amended_witness :
    |(buildSummary c7Sources 500).areaKm2 - areaKm2 500| ≤ 1 / 200 ∧
    |(buildSummary c7Sources 500).density -
      (estimatedCount c7Sources : ℚ) / areaKm2 500| ≤ 1 / 20 :=
  C7_amended c7Sources 500 (by norm_num)

/-- C3 counterexample: among two single-source competitors, the one with
an unknown distance sorts *before* the one whose known distance exceeds
9999 m, because line 651 substitutes 9999 for a missing distance.  An
unknown distance therefore does not sort last. -/
theorem C3_counterexample :
    sortCompetitors [c3Far, c3NoDist] = [c3NoDist, c3Far] ∧
    c3NoDist.distance = none ∧
    c3Far.distance = some 12000 ∧
    c3Far.sources.length = c3NoDist.sources.length := by decide

/-- C3 as amended: the output competitor list is a permutation of the
merged businesses, sorted with multi-source-confirmed businesses first
(descending by number of confirming sources) and ties broken by ascending
*effective* distance, where a missing (or zero) distance counts as
9999 m — so an unknown distance sorts last only among entries whose
distance is below 9999 m. -/
theorem C3_amended (s : Sources) :
    List.Sorted sortRel (mergedCompetitors s) ∧
    (mergedCompetitors s).Perm ((mergeAll (sourceBatches s)).map Prod.snd) :=
  ⟨List.sorted_insertionSort sortRel _, List.perm_insertionSort sortRel _⟩

/-- The merge of lines 628-636 only ever appends the new source id to the
provenance list. -/
theorem mergeListing_sources (source : String) (it : RawItem) (b : Business) :
    (mergeListing source it b).sources =
      if source ∈ b.sources then b.sources else b.sources ++ [source] := by
  simp only [mergeListing]
  split_ifs <;> rfl

/-- C5 counterexample: under the claim's key (name concatenated directly
with address, lowercased, whitespace stripped) the two listings have the
*same* key, yet the code does not merge them — its key joins name and
address with a `"_"` separator, so the keys differ and two separate
single-source entries come out. -/
theorem C5_counterexample :
    claimDedupKey c5ItemAB = claimDedupKey c5ItemA ∧
    dedupKey c5ItemAB ≠ dedupKey c5ItemA ∧
    ((addCompetitors "tmap" [c5ItemA] (addCompetitors "kakao" [c5ItemAB] [])).map
      (fun p => p.2.sources)) = [["kakao"], ["tmap"]] := by decide

/-- C5 as amended: two listings from distinct sources merge into a single
entry whose `sources` holds both identifiers exactly when their dedup keys
agree, where the key is the name and the address joined by `"_"`,
lowercased, with all whitespace removed; listings with different keys
(in particular, same name but different normalized address) stay
separate. -/
theorem C5_amended (s1 s2 : String) (h : s1 ≠ s2) (it1 it2 : RawItem) :
    (dedupKey it1 = dedupKey it2 →
      (addCompetitors s2 [it2] (addCompetitors s1 [it1] [])).map
        (fun p => p.2.sources) = [[s1, s2]]) ∧
    (dedupKey it1 ≠ dedupKey it2 →
      (addCompetitors s2 [it2] (addCompetitors s1 [it1] [])).map
        (fun p => p.2.sources) = [[s1], [s2]]) := by
  have h' : ¬ s2 = s1 := fun e => h e.symm
  constructor
  · intro hk
    simp [addCompetitors, addListing, mapGet, hk, mapUpdate,
      mergeListing_sources, initBusiness, h']
  · intro hk
    simp [addCompetitors, addListing, mapGet, hk, initBusiness]

/-- Witness for C5 as amended: the two "Cafe Moon" listings merge into one
entry confirmed by both sources. -/
theorem C5_amended_witness :
    (addCompetitors "tmap" [c5Moon2] (addCompetitors "kakao" [c5Moon1] [])).map
      (fun p => p.2.sources) = [["kakao", "tmap"]] :=
  (C5_amended "kakao" "tmap" (by decide) c5Moon1 c5Moon2).1 (by decide)

/-- C8 counterexample: when the second listing merges into the first
entry, `phone` is filled from it, but `category` and the coordinates stay
`none` even though the incoming listing has them — the merge of lines
628-636 only fills `phone`, `distance` and `placeUrl`. -/
theorem C8_counterexample :
    ((addCompetitors "naver" [c8Second] (addCompetitors "tmap" [c8First] [])).map
      Prod.snd =
      [{ name := "종로 카페", address := "서울 종로구 1", category := none,
         phone := some "02-111-2222", distance := none, lon := none, lat := none,
         placeUrl := none, sources := ["tmap", "naver"] }]) ∧
    c8Second.category = some "카페" ∧ c8Second.lon = some 127 := by decide

/-- C8 as amended: when a later listing merges into an existing entry,
only `phone`, `distance` and `placeUrl` are filled — and only when the
existing field is falsy (missing, empty string, or zero) and the incoming
one truthy; `name`, `address`, `category` and the coordinates are never
modified, and an already-populated field always keeps its first-seen
value. -/
theorem C8_amended (source : String) (it : RawItem) (b : Business) :
    ((mergeListing source it b).name = b.name ∧
     (mergeListing source it b).address = b.address ∧
     (mergeListing source it b).category = b.category ∧
     (mergeListing source it b).lon = b.lon ∧
     (mergeListing source it b).lat = b.lat) ∧
    (truthyStr b.phone = true → (mergeListing source it b).phone = b.phone) ∧
    (truthyStr b.phone = false → truthyStr it.phone = true →
      (mergeListing source it b).phone = it.phone) ∧
    (truthyStr b.phone = false → truthyStr it.phone = false →
      (mergeListing source it b).phone = b.phone) ∧
    (truthyNum b.distance = true → (mergeListing source it b).distance = b.distance) ∧
    (truthyNum b.distance = false → truthyNum it.distance = true →
      (mergeListing source it b).distance = it.distance) ∧
    (truthyNum b.distance = false → truthyNum it.distance = false →
      (mergeListing source it b).distance = b.distance) ∧
    (truthyStr b.placeUrl = true → (mergeListing source it b).placeUrl = b.placeUrl) ∧
    (truthyStr b.placeUrl = false → truthyStr it.placeUrl = true →
      (mergeListing source it b).placeUrl = it.placeUrl) ∧
    (truthyStr b.placeUrl = false → truthyStr it.placeUrl = false →
      (mergeListing source it b).placeUrl = b.placeUrl) := by
  simp only [mergeListing]
  split_ifs <;> simp_all [Bool.and_eq_true, Bool.not_eq_true'] <;>
    (repeat' apply And.intro) <;> (intros; simp_all)

/-- Witness for C8 as amended: the missing phone of the first "종로 카페"
entry is filled from the later listing. -/
theorem C8_amended_witness :
    (mergeListing "naver" c8Second (initBusiness "tmap" c8First)).phone =
      c8Second.phone :=
  (C8_amended "naver" c8Second (initBusiness "tmap" c8First)).2.2.1 (by decide)
    (by decide)

/-- C9: when exactly one of the four provider fetches fails (throws on a
network error or malformed payload, or returns non-2xx), the analysis
still produces the full report: the failed source's slot is not a success
slot (it holds an `error` object or nothing, distinguishable from every
parsed-data slot), the competitor list is exactly the merge of the three
surviving sources' items, and the estimate is the weighted sum with the
failed source contributing zero. -/
theorem C9_partial_failure_tolerance :
    (∀ (f : FetchResult SourceData), isFailure f = true →
      ∀ (td nd : SourceData) (sd : SemasData) (r : ℕ),
      slotOk ((runAnalysis f (.success td) (.success nd) (.success ("00", sd))
          r).sources.kakao) = false ∧
      (runAnalysis f (.success td) (.success nd) (.success ("00", sd))
          r).competitors =
        sortCompetitors ((mergeAll [("tmap", td.items), ("naver", nd.items),
          ("semas", semasItems sd)]).map Prod.snd) ∧
      (runAnalysis f (.success td) (.success nd) (.success ("00", sd))
          r).summary.estimatedCompetitors =
        jsRound ((td.totalCount : ℚ) * (3 / 10) +
          (sd.targetItems.length : ℚ) * (3 / 10))) ∧
    (∀ (f : FetchResult SourceData), isFailure f = true →
      ∀ (kd nd : SourceData) (sd : SemasData) (r : ℕ),
      slotOk ((runAnalysis (.success kd) f (.success nd) (.success ("00", sd))
          r).sources.tmap) = false ∧
      (runAnalysis (.success kd) f (.success nd) (.success ("00", sd))
          r).competitors =
        sortCompetitors ((mergeAll [("kakao", kd.items), ("naver", nd.items),
          ("semas", semasItems sd)]).map Prod.snd) ∧
      (runAnalysis (.success kd) f (.success nd) (.success ("00", sd))
          r).summary.estimatedCompetitors =
        jsRound ((kd.totalCount : ℚ) * (2 / 5) +
          (sd.targetItems.length : ℚ) * (3 / 10))) ∧
    (∀ (f : FetchResult SourceData), isFailure f = true →
      ∀ (kd td : SourceData) (sd : SemasData) (r : ℕ),
      slotOk ((runAnalysis (.success kd) (.success td) f (.success ("00", sd))
          r).sources.naver) = false ∧
      (runAnalysis (.success kd) (.success td) f (.success ("00", sd))
          r).competitors =
        sortCompetitors ((mergeAll [("kakao", kd.items), ("tmap", td.items),
          ("semas", semasItems sd)]).map Prod.snd) ∧
      (runAnalysis (.success kd) (.success td) f (.success ("00", sd))
          r).summary.estimatedCompetitors =
        jsRound ((kd.totalCount : ℚ) * (2 / 5) + (td.totalCount : ℚ) * (3 / 10) +
          (sd.targetItems.length : ℚ) * (3 / 10))) ∧
    (∀ (f : FetchResult (String × SemasData)), isFailure f = true →
      ∀ (kd td nd : SourceData) (r : ℕ),
      slotOk ((runAnalysis (.success kd) (.success td) (.success nd) f
          r).sources.semas) = false ∧
      (runAnalysis (.success kd) (.success td) (.success nd) f
          r).competitors =
        sortCompetitors ((mergeAll [("kakao", kd.items), ("tmap", td.items),
          ("naver", nd.items)]).map Prod.snd) ∧
      (runAnalysis (.success kd) (.success td) (.success nd) f
          r).summary.estimatedCompetitors =
        jsRound ((kd.totalCount : ℚ) * (2 / 5) +
          (td.totalCount : ℚ) * (3 / 10))) := by
  refine ⟨?_, ?_, ?_, ?_⟩
  · intro f h td nd sd r
    cases f with
    | success d => simp [isFailure] at h
    | throws m =>
      refine ⟨rfl, rfl, ?_⟩
      show estimatedCount _ = _
      rw [estimatedCount]
      congr 1
      simp only [kakaoTotal, tmapTotal, semasTargetCount, buildSources,
        routeSlot, semasSlot]
      push_cast
      ring
    | non2xx =>
      refine ⟨rfl, rfl, ?_⟩
      show estimatedCount _ = _
      rw [estimatedCount]
      congr 1
      simp only [kakaoTotal, tmapTotal, semasTargetCount, buildSources,
        routeSlot, semasSlot]
      push_cast
      ring
  · intro f h kd nd sd r
    cases f with
    | success d => simp [isFailure] at h
    | throws m =>
      refine ⟨rfl, rfl, ?_⟩
      show estimatedCount _ = _
      rw [estimatedCount]
      congr 1
      simp only [kakaoTotal, tmapTotal, semasTargetCount, buildSources,
        routeSlot, semasSlot]
      push_cast
      ring
    | non2xx =>
      refine ⟨rfl, rfl, ?_⟩
      show estimatedCount _ = _
      rw [estimatedCount]
      congr 1
      simp only [kakaoTotal, tmapTotal, semasTargetCount, buildSources,
        routeSlot, semasSlot]
      push_cast
      ring
  · intro f h kd td sd r
    cases f with
    | success d => simp [isFailure] at h
    | throws m => exact ⟨rfl, rfl, rfl⟩
    | non2xx => exact ⟨rfl, rfl, rfl⟩
  · intro f h kd td nd r
    cases f with
    | success d => simp [isFailure] at h
    | throws m =>
      refine ⟨rfl, rfl, ?_⟩
      show estimatedCount _ = _
      rw [estimatedCount]
      congr 1
      simp only [kakaoTotal, tmapTotal, semasTargetCount, buildSources,
        routeSlot, semasSlot]
      push_cast
      ring
    | non2xx =>
      refine ⟨rfl, rfl, ?_⟩
      show estimatedCount _ = _
      rw [estimatedCount]
      congr 1
      simp only [kakaoTotal, tmapTotal, semasTargetCount, buildSources,
        routeSlot, semasSlot]
      push_cast
      ring

/-- Witness for C9: a run with a non-2xx kakao response and three
successes leaves the kakao slot without parsed data. -/
theorem C9_partial_failure_tolerance_witness :
    slotOk ((runAnalysis .non2xx (.success c9Tmap) (.success c9Naver)
        (.success ("00", c9Semas)) 1000).sources.kakao) = false :=
  (C9_partial_failure_tolerance.1 .non2xx (by decide) c9Tmap c9Naver c9Semas
    1000).1

/-- A key absent from the front part of the map is looked up in the rest. -/
theorem mapGet_append_of_none (k : String) (l : List (String × Business)) :
    ∀ m : List (String × Business), mapGet k m = none →
      mapGet k (m ++ l) = mapGet k l := by
  intro m
  induction m with
  | nil => intro _; rfl
  | cons p rest ih =>
    intro h
    obtain ⟨k', b⟩ := p
    simp only [mapGet] at h
    simp only [List.cons_append, mapGet]
    by_cases hk : k' = k
    · rw [if_pos hk] at h
      exact absurd h (by simp)
    · rw [if_neg hk] at h
      rw [if_neg hk]
      exact ih h

/-- A key present in the front part of the map keeps its value under
append. -/
theorem mapGet_append_of_some (k : String) (l : List (String × Business))
    (b : Business) :
    ∀ m : List (String × Business), mapGet k m = some b →
      mapGet k (m ++ l) = some b := by
  intro m
  induction m with
  | nil => intro h; exact absurd h (by simp [mapGet])
  | cons p rest ih =>
    intro h
    obtain ⟨k', c⟩ := p
    simp only [mapGet] at h
    simp only [List.cons_append, mapGet]
    by_cases hk : k' = k
    · rw [if_pos hk] at h
      rw [if_pos hk]
      exact h
    · rw [if_neg hk] at h
      rw [if_neg hk]
      exact ih h

/-- Updating the entry at `k` changes exactly that entry's value. -/
theorem mapGet_mapUpdate_self (k : String) (f : Business → Business)
    (b : Business) :
    ∀ m : List (String × Business), mapGet k m = some b →
      mapGet k (mapUpdate k f m) = some (f b) := by
  intro m
  induction m with
  | nil => intro h; exact absurd h (by simp [mapGet])
  | cons p rest ih =>
    intro h
    obtain ⟨k', c⟩ := p
    simp only [mapGet] at h
    simp only [mapUpdate]
    by_cases hk : k' = k
    · rw [if_pos hk] at h
      rw [if_pos hk]
      simp only [mapGet, if_pos hk]
      rw [Option.some_inj.mp h]
    · rw [if_neg hk] at h
      rw [if_neg hk]
      simp only [mapGet, if_neg hk]
      exact ih h

/-- Updating the entry at another key leaves a lookup unchanged. -/
theorem mapGet_mapUpdate_of_ne (k ku : String) (hne : ku ≠ k)
    (f : Business → Business) :
    ∀ m : List (String × Business), mapGet k (mapUpdate ku f m) = mapGet k m := by
  intro m
  induction m with
  | nil => rfl
  | cons p rest ih =>
    obtain ⟨k', c⟩ := p
    simp only [mapUpdate]
    by_cases hk : k' = ku
    · rw [if_pos hk]
      simp only [mapGet]
      rw [if_neg (by rw [hk]; exact hne), if_neg (by rw [hk]; exact hne)]
    · rw [if_neg hk]
      simp only [mapGet]
      by_cases hk2 : k' = k
      · rw [if_pos hk2, if_pos hk2]
      · rw [if_neg hk2, if_neg hk2]
        exact ih

/-- Updating an entry's value keeps the key sequence. -/
theorem mapUpdate_fst (k : String) (f : Business → Business) :
    ∀ m : List (String × Business),
      (mapUpdate k f m).map Prod.fst = m.map Prod.fst := by
  intro m
  induction m with
  | nil => rfl
  | cons p rest ih =>
    obtain ⟨k', c⟩ := p
    simp only [mapUpdate]
    by_cases hk : k' = k
    · rw [if_pos hk]
      rfl
    · rw [if_neg hk]
      simp only [List.map_cons, ih]

/-- A lookup misses exactly when the key is not among the map's keys. -/
theorem mapGet_eq_none_iff (k : String) :
    ∀ m : List (String × Business),
      mapGet k m = none ↔ k ∉ m.map Prod.fst := by
  intro m
  induction m with
  | nil => simp [mapGet]
  | cons p rest ih =>
    obtain ⟨k', c⟩ := p
    simp only [mapGet, List.map_cons, List.mem_cons]
    by_cases hk : k' = k
    · rw [if_pos hk]
      simp [hk]
    · rw [if_neg hk]
      rw [ih]
      constructor
      · intro h hmem
        rcases hmem with he | hm
        · exact hk he.symm
        · exact h hm
      · intro h hm
        exact h (Or.inr hm)

/-- Processing a listing stores (or keeps) an entry under the listing's
dedup key whose provenance contains the processing source. -/
theorem addListing_establishes (src : String) (m : List (String × Business))
    (it : RawItem) :
    ∃ b, mapGet (dedupKey it) (addListing src m it) = some b ∧
      src ∈ b.sources := by
  simp only [addListing]
  split
  · next h =>
    refine ⟨initBusiness src it, ?_, by simp [initBusiness]⟩
    rw [mapGet_append_of_none _ _ _ h]
    simp [mapGet]
  · next b h =>
    refine ⟨mergeListing src it b, mapGet_mapUpdate_self _ _ _ _ h, ?_⟩
    rw [mergeListing_sources]
    split_ifs with hs
    · exact hs
    · simp

/-- Processing another listing never removes an existing entry or any of
its recorded sources. -/
theorem addListing_preserves (src' : String) (it' : RawItem)
    (src k : String) (m : List (String × Business)) (b : Business)
    (h : mapGet k m = some b) (hs : src ∈ b.sources) :
    ∃ b', mapGet k (addListing src' m it') = some b' ∧ src ∈ b'.sources := by
  simp only [addListing]
  split
  · next hg => exact ⟨b, mapGet_append_of_some _ _ _ _ h, hs⟩
  · next c hg =>
    by_cases hk : dedupKey it' = k
    · subst hk
      refine ⟨mergeListing src' it' b, mapGet_mapUpdate_self _ _ _ _ h, ?_⟩
      rw [mergeListing_sources]
      split_ifs with hmem
      · exact hs
      · exact List.mem_append_left _ hs
    · refine ⟨b, ?_, hs⟩
      rw [mapGet_mapUpdate_of_ne _ _ hk]
      exact h

/-- `addCompetitors` never removes an existing entry or any of its
recorded sources. -/
theorem addCompetitors_preserves (src' : String) (its : List RawItem)
    (src k : String) :
    ∀ (m : List (String × Business)) (b : Business),
      mapGet k m = some b → src ∈ b.sources →
      ∃ b', mapGet k (addCompetitors src' its m) = some b' ∧
        src ∈ b'.sources := by
  induction its with
  | nil => intro m b h hs; exact ⟨b, h, hs⟩
  | cons it rest ih =>
    intro m b h hs
    simp only [addCompetitors, List.foldl_cons] at *
    obtain ⟨b1, h1, hs1⟩ := addListing_preserves src' it src k m b h hs
    exact ih _ _ h1 hs1

/-- Every listing handed to `addCompetitors` ends up recorded, with its
source, under its dedup key. -/
theorem addCompetitors_establishes (src : String) (its : List RawItem)
    (it : RawItem) (hit : it ∈ its) :
    ∀ m : List (String × Business),
      ∃ b, mapGet (dedupKey it) (addCompetitors src its m) = some b ∧
        src ∈ b.sources := by
  induction its with
  | nil => cases hit
  | cons a rest ih =>
    intro m
    simp only [addCompetitors, List.foldl_cons] at *
    rcases List.mem_cons.mp hit with rfl | hmem
    · obtain ⟨b, hb, hsb⟩ := addListing_establishes src m it
      exact addCompetitors_preserves src rest src (dedupKey it) _ b hb hsb
    · exact ih hmem _

/-- Folding further batches never removes an entry or any of its recorded
sources. -/
theorem batchesFold_preserves (src k : String) :
    ∀ (batches : List (String × List RawItem)) (m : List (String × Business))
      (b : Business), mapGet k m = some b → src ∈ b.sources →
      ∃ b', mapGet k
          (batches.foldl (fun m p => addCompetitors p.1 p.2 m) m) = some b' ∧
        src ∈ b'.sources := by
  intro batches
  induction batches with
  | nil => intro m b h hs; exact ⟨b, h, hs⟩
  | cons p rest ih =>
    intro m b h hs
    simp only [List.foldl_cons]
    obtain ⟨b1, h1, hs1⟩ := addCompetitors_preserves p.1 p.2 src k m b h hs
    exact ih _ b1 h1 hs1

/-- Every listing of every batch ends up recorded, with its source, under
its dedup key. -/
theorem batchesFold_establishes (src : String) (its : List RawItem)
    (it : RawItem) (hit : it ∈ its) :
    ∀ (batches : List (String × List RawItem)) (m : List (String × Business)),
      (src, its) ∈ batches →
      ∃ b, mapGet (dedupKey it)
          (batches.foldl (fun m p => addCompetitors p.1 p.2 m) m) = some b ∧
        src ∈ b.sources := by
  intro batches
  induction batches with
  | nil => intro m h; cases h
  | cons p rest ih =>
    intro m hmem
    simp only [List.foldl_cons]
    rcases List.mem_cons.mp hmem with rfl | hrest
    · obtain ⟨b, hb, hsb⟩ := addCompetitors_establishes src its it hit m
      exact batchesFold_preserves src (dedupKey it) rest _ b hb hsb
    · exact ih _ hrest

/-- The key sequence after a listing: unchanged for a known key, the
listing's key appended for a fresh one. -/
theorem addListing_fst (src : String) (m : List (String × Business))
    (it : RawItem) :
    (addListing src m it).map Prod.fst =
      if mapGet (dedupKey it) m = none then m.map Prod.fst ++ [dedupKey it]
      else m.map Prod.fst := by
  unfold addListing
  cases h : mapGet (dedupKey it) m with
  | none => simp [h]
  | some b => simp [h, mapUpdate_fst]

/-- Processing a listing keeps the keys pairwise distinct. -/
theorem addListing_nodup (src : String) (m : List (String × Business))
    (it : RawItem) (h : (m.map Prod.fst).Nodup) :
    ((addListing src m it).map Prod.fst).Nodup := by
  rw [addListing_fst]
  split_ifs with hn
  · have hnot : dedupKey it ∉ m.map Prod.fst := (mapGet_eq_none_iff _ _).mp hn
    simp [List.nodup_append, h, hnot]
  · exact h

/-- `addCompetitors` keeps the keys pairwise distinct. -/
theorem addCompetitors_nodup (src : String) (its : List RawItem) :
    ∀ m : List (String × Business), (m.map Prod.fst).Nodup →
      ((addCompetitors src its m).map Prod.fst).Nodup := by
  induction its with
  | nil => intro m h; exact h
  | cons it rest ih =>
    intro m h
    simp only [addCompetitors, List.foldl_cons] at *
    exact ih _ (addListing_nodup src m it h)

/-- Folding batches keeps the keys pairwise distinct. -/
theorem batchesFold_nodup :
    ∀ (batches : List (String × List RawItem)) (m : List (String × Business)),
      (m.map Prod.fst).Nodup →
      (((batches.foldl (fun m p => addCompetitors p.1 p.2 m) m)).map
        Prod.fst).Nodup := by
  intro batches
  induction batches with
  | nil => intro m h; exact h
  | cons p rest ih =>
    intro m h
    simp only [List.foldl_cons]
    exact ih _ (addCompetitors_nodup p.1 p.2 m h)

/-- C2: the merge drops no listing.  Every input listing of every batch is
represented in the merged map: the entry stored under the listing's dedup
key exists, is unique (keys are pairwise distinct), and carries the
listing's source in its provenance set.  A listing either created that
entry or was folded into it. -/
theorem C2_no_listing_dropped (batches : List (String × List RawItem)) :
    (∀ (src : String) (its : List RawItem) (it : RawItem),
      (src, its) ∈ batches → it ∈ its →
      ∃ b, mapGet (dedupKey it) (mergeAll batches) = some b ∧
        src ∈ b.sources) ∧
    ((mergeAll batches).map Prod.fst).Nodup := by
  constructor
  · intro src its it hb hit
    exact batchesFold_establishes src its it hit batches [] hb
  · exact batchesFold_nodup batches [] (by simp)

/-- Witness for C2 at a one-batch input. -/
theorem C2_no_listing_dropped_witness :
    ∃ b, mapGet (dedupKey c2Item) (mergeAll [("kakao", [c2Item])]) = some b ∧
      "kakao" ∈ b.sources :=
  (C2_no_listing_dropped [("kakao", [c2Item])]).1 "kakao" [c2Item] c2Item
    (by simp) (by simp)
